import Mathlib

/-!
Verification development for the `site_coordination` repository.

The definitions below are a shallow embedding of the Python source under
`src/site_coordination/` (chiefly `coordination_app.py`, `notifications.py`,
`config.py`).  The relational store is embedded as explicit lists of rows;
SQL statements executed by the handlers are embedded both as the string/
parameter pair the code builds (for the statement-text properties) and as
their semantics on the row lists (for the functional properties).  Side
effects (flash messages, commits, SMTP transmissions) are recorded in an
event trace.  Timestamps (`created_at`) are embedded as naturals ordered the
same way as the stored column values.

Modules `site_coordination.db`, `db_tools`, `passwords`, `email_parser` and
`processor` are imported by the source but are not part of the four source
files; the operations of theirs that the handlers invoke are modelled from
the specification and are marked as such in their doc comments.
-/

namespace SiteCoordination

/-- A row of the `registrations` table (spec section 3). -/
structure Registration where
  email : String
  first_name : String
  last_name : String
  affiliation : String
  project : String
  phone : String
  status : String
  created_at : Nat
deriving DecidableEq, Repr

/-- A row of the `users` table (spec section 3). -/
structure User where
  email : String
  password : String
  first_name : String
  last_name : String
  affiliation : String
  project : String
  phone : String
  credentials_sent : Nat
  created_at : Nat
deriving DecidableEq, Repr

/-- A row of the `bookings` table (spec section 3).  `duration_weeks` is kept
as the text the handlers interpolate into messages. -/
structure Booking where
  id : Nat
  email : String
  first_name : String
  last_name : String
  project : String
  timeslot_raw : String
  duration_weeks : String
  status : String
  created_at : Nat
deriving DecidableEq, Repr

/-- A row of the `activity_research` table (columns per the insert in
`check_in_rcs_app.py`). -/
structure ResearchActivity where
  email : String
  first_name : String
  last_name : String
  project : String
  presence : String
  created_at : Nat
deriving DecidableEq, Repr

/-- A row of the `activity_service_provider` table (columns per the filter in
`_fetch_activity_service`). -/
structure ServiceActivity where
  name : String
  company : String
  service : String
  presence : String
  created_at : Nat
deriving DecidableEq, Repr

/-- The five logical tables of the store (spec section 2). -/
structure Db where
  registrations : List Registration
  users : List User
  bookings : List Booking
  activity_research : List ResearchActivity
  activity_service_provider : List ServiceActivity
deriving DecidableEq, Repr

/-- SMTP configuration, from `config.py` (`SmtpConfig`). -/
structure SmtpConfig where
  host : String
  user : String
  password : String
  port : Nat := 587
  sender_email : String := "wordpress@campus-rwth-aachen.com"
deriving DecidableEq, Repr

/-- An email message: `EmailMessage` with a subject, a recipient and a body
made of the lines joined by newlines in the source. -/
structure EmailMsg where
  subject : String
  toAddr : String
  bodyLines : List String
deriving DecidableEq, Repr

/-- Python exceptions that can escape the handlers we embed. -/
inductive PyErr where
  | typeError
  | smtpError
deriving DecidableEq, Repr

/-- Observable side effects of a handler, in the order they happen. -/
inductive Event where
  | flash (message category : String)
  | sqlCommit (table : String)
  | sendAttempt (msg : EmailMsg)
deriving DecidableEq, Repr

def Event.isSendAttempt : Event → Bool
  | .sendAttempt _ => true
  | _ => false

/-! ## Email composition (`notifications.py`) -/

/-- `build_credentials_email` from `notifications.py` (four parameters:
recipient, password, first_name, last_name). -/
def build_credentials_email (recipient password first_name last_name : String) :
    EmailMsg :=
  let full_name := String.intercalate " "
    (([first_name, last_name].filter (fun part => part ≠ "")))
  let greeting_name := if full_name = "" then "there" else full_name
  { subject := "Your registration for the Reference Construction Site has been approved"
    toAddr := recipient
    bodyLines :=
      [ "Dear " ++ greeting_name ++ ","
      , ""
      , "your registration has been approved."
      , ""
      , "Below are your credentials for Check-In and Check-Out at the Reference Construction Site in Aachen."
      , ""
      , "Email: " ++ recipient
      , "Password: " ++ password
      , ""
      , "Please keep this information secure."
      , ""
      , "How to book a timeslot:"
      , ""
      , "Log in to the booking page"
      , "https://construction-robotics.de/en/referencesite/members-area/booking/"
      , "Use the Members Area password: CARE_DFG_2026"
      , ""
      , "1) Enter your first name and last name"
      , "2) Enter the same email address as in this message"
      , "3) Enter the project you are working on"
      , "4) Select your requested timeslot"
      , "--> Choose the starting week"
      , "--> Choose the duration in weeks"
      , ""
      , "Complete all required fields"
      , ""
      , "Submit the form"
      , "Your request will be reviewed for approval"
      , ""
      , "Best regards,"
      , ""
      , "CCR Reference Construction Site Coordination Team" ] }

/-- `build_booking_confirmation_email` from `notifications.py`.  For a
`sqlite3.Row` the helper `_booking_value` returns the row's column value,
since `project`, `timeslot_raw` and `duration_weeks` are all columns of
`bookings`. -/
def build_booking_confirmation_email (recipient : String) (booking : Booking) :
    EmailMsg :=
  { subject := "Your Booking Confirmation"
    toAddr := recipient
    bodyLines :=
      [ "Hello,"
      , ""
      , "your booking request has been approved."
      , "Project: " ++ booking.project
      , "Timeslot: " ++ booking.timeslot_raw
      , "Duration (weeks): " ++ booking.duration_weeks
      , ""
      , "Please ensure you have your login credentials ready on the day of your visit"
      , "to enter the Reference Construction Site in Aachen."
      , ""
      , "Best regards,"
      , "Site Coordination Team" ] }

/-- Number of parameters `build_credentials_email` requires (its signature in
`notifications.py` lines 12-17: recipient, password, first_name, last_name). -/
def build_credentials_email_paramCount : Nat := 4

/-- Number of positional arguments passed at the call site
`build_credentials_email(email, password)` in `coordination_app.py` line 350. -/
def coordination_call_argCount : Nat := 2

/-- The Python call `build_credentials_email(email, password)` as written at
`coordination_app.py` line 350: a call that supplies fewer positional
arguments than the callee's required parameters raises `TypeError` before the
callee's body runs. -/
def call_build_credentials_email (email password : String) :
    Except PyErr EmailMsg :=
  if coordination_call_argCount < build_credentials_email_paramCount then
    .error .typeError
  else
    .ok (build_credentials_email email password "" "")

/-! ## Store operations modelled from the spec (module `site_coordination.db`
is not among the source files) -/

/-- Modelled from the spec: `db.update_registration_status` (module
`site_coordination.db` is not under the sources).  Spec section 4.2 lists the
write operation "update-status-by-key"; the key of `registrations` is the
email, so the rows whose email matches get the new status. -/
def update_registration_status (db : Db) (email status : String) : Db :=
  { db with registrations := db.registrations.map (fun r =>
      if r.email = email then { r with status := status } else r) }

/-- Modelled from the spec: `db.insert_user` (module `site_coordination.db`
is not under the sources).  Spec section 4.2 lists "insert-user" and section 3
gives the User columns; section 9 records that the observed design has no
uniqueness backstop on `users.email`, so the insert appends unconditionally.
`credentials_sent` is a counter incremented only by credential sends, so a
new row starts at 0; `created_at` is the insertion time, passed in by the
embedding. -/
def insert_user (db : Db) (email password first_name last_name affiliation
    project phone : String) (now : Nat) : Db :=
  { db with users := db.users ++
      [{ email := email, password := password, first_name := first_name,
         last_name := last_name, affiliation := affiliation,
         project := project, phone := phone, credentials_sent := 0,
         created_at := now }] }

/-! ## Lifecycle handlers (`coordination_app.py`) -/

/-- `SELECT * FROM registrations WHERE email = ?` followed by `fetchone()`:
the first matching row, if any. -/
def findRegistration (db : Db) (email : String) : Option Registration :=
  db.registrations.find? (fun r => r.email = email)

/-- `SELECT 1 FROM users WHERE email = ?` via `fetchone()`, as in
`_user_exists`. -/
def findUser (db : Db) (email : String) : Option User :=
  db.users.find? (fun u => u.email = email)

/-- `SELECT * FROM bookings WHERE id = ?` via `fetchone()`. -/
def findBooking (db : Db) (id : Nat) : Option Booking :=
  db.bookings.find? (fun b => b.id = id)

/-- `_user_exists` from `coordination_app.py` lines 222-230. -/
def user_exists (db : Db) (email : String) : Bool :=
  if email = "" then false else (findUser db email).isSome

/-- `_approve_registration` from `coordination_app.py` lines 287-308.  The
ambient effects of the missing modules are passed in: `password` is the
return value of `passwords.generate_password()` and `now` the insertion
timestamp.  Note the handler performs no user-existence check and no status
check: it looks the registration up by email, inserts a user from the row's
columns, and sets the status to "registriert". -/
def approve_registration (db : Db) (email password : String) (now : Nat) :
    Db × List Event :=
  match findRegistration db email with
  | none => (db, [.flash "Registration not found." "error"])
  | some row =>
      let db₁ := insert_user db row.email password row.first_name
        row.last_name row.affiliation row.project row.phone now
      let db₂ := update_registration_status db₁ email "registriert"
      (db₂,
        [.flash ("Registration approved and user created for " ++ email ++ ".")
          "success"])

/-- `_deny_registration` from `coordination_app.py` lines 311-314: no lookup,
no status check; the update runs and a success message is flashed either
way. -/
def deny_registration (db : Db) (email : String) : Db × List Event :=
  (update_registration_status db email "denied",
    [.flash ("Registration denied for " ++ email ++ ".") "success"])

/-- `UPDATE bookings SET status = ? WHERE id = ?`. -/
def updateBookingStatus (db : Db) (id : Nat) (status : String) : Db :=
  { db with bookings := db.bookings.map (fun b =>
      if b.id = id then { b with status := status } else b) }

/-- `_send_booking_email` from `coordination_app.py` lines 390-396.
Returns the events it produces and whether an exception escaped
(`send_email` raising a transport error when `transportOk` is false). -/
def send_booking_email (cfg : SmtpConfig) (email : String) (row : Booking)
    (transportOk : Bool) : List Event × Bool :=
  if cfg.host = "" then
    ([.flash "SMTP host not configured; booking email not sent." "error"], false)
  else
    ([.sendAttempt (build_booking_confirmation_email email row)], !transportOk)

/-- `_approve_booking` from `coordination_app.py` lines 317-332: fetch the
row; if absent flash "Booking not found." and return; otherwise update the
status to "gebucht" and commit, then attempt the confirmation email with the
fetched row, then flash success (skipped if the send raised). -/
def approve_booking (db : Db) (id : Nat) (cfg : SmtpConfig)
    (transportOk : Bool) : Db × List Event :=
  match findBooking db id with
  | none => (db, [.flash "Booking not found." "error"])
  | some row =>
      let db' := updateBookingStatus db id "gebucht"
      let evRaised := send_booking_email cfg row.email row transportOk
      (db', .sqlCommit "bookings" :: evRaised.1 ++
        (if evRaised.2 then []
         else [.flash ("Booking approved for " ++ row.email ++ ".") "success"]))

/-- `_deny_booking` from `coordination_app.py` lines 335-342: no lookup, no
status check; the update runs, is committed and a success message is
flashed. -/
def deny_booking (db : Db) (id : Nat) : Db × List Event :=
  (updateBookingStatus db id "denied",
    [.sqlCommit "bookings", .flash "Booking denied." "success"])

/-- `_send_credentials_email` from `coordination_app.py` lines 345-352.
Returns the events, the exception that escaped (if any) and the boolean the
Python function returns on normal termination.  With a configured host the
call at line 350 raises `TypeError` (two arguments against four required
parameters), so `send_email` is never reached on that path; the remaining
branches are embedded faithfully from the source text. -/
def send_credentials_email (cfg : SmtpConfig) (email password : String)
    (transportOk : Bool) : List Event × Option PyErr × Bool :=
  if cfg.host = "" then
    ([.flash "SMTP host not configured; credentials email not sent." "error"],
      none, false)
  else
    match call_build_credentials_email email password with
    | .error e => ([], some e, false)
    | .ok m =>
        if transportOk then ([.sendAttempt m], none, true)
        else ([.sendAttempt m], some .smtpError, false)

/-- Result of `_send_user_credentials`: the store, the trace, and the
exception that escaped, if any. -/
structure CredOutcome where
  db : Db
  events : List Event
  error : Option PyErr
deriving DecidableEq, Repr

/-- `UPDATE users SET credentials_sent = credentials_sent + 1 WHERE email = ?`. -/
def incrementCredentialsSent (db : Db) (email : String) : Db :=
  { db with users := db.users.map (fun u =>
      if u.email = email then { u with credentials_sent := u.credentials_sent + 1 }
      else u) }

/-- `_send_user_credentials` from `coordination_app.py` lines 355-372: fetch
the user; if absent flash "User not found." and return; otherwise call
`_send_credentials_email` with the stored password; only when it returns True
is the counter incremented, committed, and success flashed.  An exception
from the send call propagates and leaves the store untouched. -/
def send_user_credentials (db : Db) (email : String) (cfg : SmtpConfig)
    (transportOk : Bool) : CredOutcome :=
  match findUser db email with
  | none => { db := db, events := [.flash "User not found." "error"], error := none }
  | some row =>
      let res := send_credentials_email cfg email row.password transportOk
      match res.2.1 with
      | some e => { db := db, events := res.1, error := some e }
      | none =>
          if res.2.2 then
            { db := incrementCredentialsSent db email
              events := res.1 ++
                [.sqlCommit "users",
                 .flash ("Credentials sent to " ++ email ++ ".") "success"]
              error := none }
          else
            { db := db, events := res.1, error := none }

/-! ## SQLite `LIKE` and `ORDER BY` semantics for the list views -/

/-- ASCII lower-casing, the folding SQLite's default `LIKE` applies. -/
def lowerAscii (c : Char) : Char :=
  if 'A' ≤ c ∧ c ≤ 'Z' then Char.ofNat (c.toNat + 32) else c

/-- Character comparison of SQLite's default `LIKE`: case-insensitive for the
ASCII letters, exact for everything else. -/
def eqCI (a b : Char) : Bool := lowerAscii a = lowerAscii b

/-- SQLite `LIKE` on character lists: `%` matches any sequence (embedded as a
search over all suffixes), `_` any single character, other characters compare
case-insensitively over ASCII. -/
def likeM : List Char → List Char → Bool
  | [], s => s.isEmpty
  | p :: ps, s =>
    if p = '%' then
      (List.range (s.length + 1)).any (fun k => likeM ps (s.drop k))
    else
      match s with
      | [] => false
      | c :: cs => (p = '_' || eqCI p c) && likeM ps cs

/-- `column LIKE pattern` on strings. -/
def sqliteLike (pattern s : String) : Bool := likeM pattern.toList s.toList

/-- The `WHERE ... LIKE ? OR ... LIKE ?` filter: some column of the row
matches the pattern `%query%` the handlers bind. -/
def anyColumnLike (query : String) (cols : List String) : Bool :=
  cols.any (fun c => sqliteLike ("%" ++ query ++ "%") c)

/-- Insertion step of `ORDER BY key DESC`. -/
def insertDesc (key : α → Nat) (x : α) : List α → List α
  | [] => [x]
  | y :: ys => if key y ≤ key x then x :: y :: ys else y :: insertDesc key x ys

/-- `ORDER BY key DESC` as an insertion sort. -/
def sortDesc (key : α → Nat) : List α → List α
  | [] => []
  | x :: xs => insertDesc key x (sortDesc key xs)

/-- `_fetch_registrations` from `coordination_app.py` lines 207-219: without a
query all rows, with a query the rows where one of email, first_name,
last_name, affiliation, project, status matches `LIKE %query%`; always
ordered by `created_at` descending. -/
def fetch_registrations (query : String) (db : Db) : List Registration :=
  let rows :=
    if query = "" then db.registrations
    else db.registrations.filter (fun r =>
      anyColumnLike query
        [r.email, r.first_name, r.last_name, r.affiliation, r.project, r.status])
  sortDesc (fun r => r.created_at) rows

/-- `_fetch_users` from `coordination_app.py` lines 248-260: the filtered
columns are email, first_name, last_name, affiliation, project, phone. -/
def fetch_users (query : String) (db : Db) : List User :=
  let rows :=
    if query = "" then db.users
    else db.users.filter (fun u =>
      anyColumnLike query
        [u.email, u.first_name, u.last_name, u.affiliation, u.project, u.phone])
  sortDesc (fun u => u.created_at) rows

/-- `_fetch_bookings` from `coordination_app.py` lines 233-245. -/
def fetch_bookings (query : String) (db : Db) : List Booking :=
  let rows :=
    if query = "" then db.bookings
    else db.bookings.filter (fun b =>
      anyColumnLike query
        [b.email, b.first_name, b.last_name, b.project, b.timeslot_raw, b.status])
  sortDesc (fun b => b.created_at) rows

/-- `_fetch_activity_research` from `coordination_app.py` lines 263-272. -/
def fetch_activity_research (query : String) (db : Db) : List ResearchActivity :=
  let rows :=
    if query = "" then db.activity_research
    else db.activity_research.filter (fun a =>
      anyColumnLike query [a.email, a.project, a.presence])
  sortDesc (fun a => a.created_at) rows

/-- `_fetch_activity_service` from `coordination_app.py` lines 275-284. -/
def fetch_activity_service (query : String) (db : Db) : List ServiceActivity :=
  let rows :=
    if query = "" then db.activity_service_provider
    else db.activity_service_provider.filter (fun a =>
      anyColumnLike query [a.name, a.company, a.service, a.presence])
  sortDesc (fun a => a.created_at) rows

/-! ## The statement texts the handlers build (for the parameterization
property) -/

/-- The SQL text and parameter list built by `_fetch_users`
(`coordination_app.py` lines 248-260): the text is extended by a fixed
`WHERE` clause when the query is non-empty, and the query value goes into the
six `LIKE` parameters as `%query%`. -/
def fetchUsersStatement (query : String) : String × List String :=
  let sql := "SELECT * FROM users"
  let sqlParams :=
    if query ≠ "" then
      (sql ++ " WHERE email LIKE ? OR first_name LIKE ? OR last_name LIKE ?"
          ++ " OR affiliation LIKE ? OR project LIKE ? OR phone LIKE ?",
        List.replicate 6 ("%" ++ query ++ "%"))
    else (sql, [])
  (sqlParams.1 ++ " ORDER BY created_at DESC", sqlParams.2)

/-- Python truthiness of the optional date fields in
`_build_booking_summary`: `None` and the empty string are falsy. -/
def optTruthy : Option String → Bool
  | none => false
  | some s => s ≠ ""

/-- The SQL text and parameter list built by `_build_booking_summary`
(`coordination_app.py` lines 404-421): fixed clause fragments are appended
for each present filter, and the filter values go only into the parameter
list. -/
def bookingSummaryStatement (email_filter : String)
    (start_date end_date : Option String) : String × List String :=
  let base := "SELECT * FROM bookings WHERE 1=1"
  let step1 :=
    if email_filter ≠ "" then (base ++ " AND email = ?", [email_filter])
    else (base, [])
  let step2 :=
    match start_date with
    | some s =>
        if s ≠ "" then
          (step1.1 ++ " AND date(created_at) >= date(?)", step1.2 ++ [s])
        else step1
    | none => step1
  match end_date with
  | some s =>
      if s ≠ "" then
        (step2.1 ++ " AND date(created_at) <= date(?)", step2.2 ++ [s])
      else step2
  | none => step2

/-! ## The activities view -/

/-- The rows handed to the template by the activities view: one of the two
activity tables. -/
inductive ActivityRows where
  | research (rows : List ResearchActivity)
  | service (rows : List ServiceActivity)
deriving DecidableEq, Repr

/-- The `activities` route from `coordination_app.py` lines 149-163:
`table = request.args.get("table", "research")`; exactly the value "service"
selects the service-provider table, every other value falls to the `else`
branch which re-assigns `table = "research"` and fetches the research
table.  The result is the `table` value reported to the template and the
fetched rows. -/
def activities (tableArg : Option String) (query : String) (db : Db) :
    String × ActivityRows :=
  let table := tableArg.getD "research"
  if table = "service" then ("service", .service (fetch_activity_service query db))
  else ("research", .research (fetch_activity_research query db))

/-! ## Substring predicates used to compare the filter with the spec -/

/-- Case-sensitive comparison of `needle` with the front of `hay`. -/
def csStarts : List Char → List Char → Bool
  | [], _ => true
  | _ :: _, [] => false
  | a :: as, b :: bs => a = b && csStarts as bs

/-- Follows the spec's words for claim C8: `needle` is a case-sensitive
substring of `hay`. -/
def csContains (hay needle : String) : Bool :=
  (List.range (hay.length + 1)).any (fun k => csStarts needle.toList (hay.toList.drop k))

/-- Follows the spec's words for claim C8: the query is a case-sensitive
substring of one of the six user columns. -/
def specCaseSensitiveUserMatch (query : String) (u : User) : Bool :=
  [u.email, u.first_name, u.last_name, u.affiliation, u.project, u.phone].any
    (fun c => csContains c query)

/-- ASCII-case-insensitive comparison of `needle` with the front of `hay`. -/
def ciStarts : List Char → List Char → Bool
  | [], _ => true
  | _ :: _, [] => false
  | a :: as, b :: bs => eqCI a b && ciStarts as bs

/-- `needle` is an ASCII-case-insensitive substring of `hay`. -/
def ciContains (hay needle : String) : Bool :=
  (List.range (hay.length + 1)).any (fun k => ciStarts needle.toList (hay.toList.drop k))

/-- The query matches one of the six user columns as an
ASCII-case-insensitive substring. -/
def ciUserMatch (query : String) (u : User) : Bool :=
  [u.email, u.first_name, u.last_name, u.affiliation, u.project, u.phone].any
    (fun c => ciContains c query)

/-- The query matches one of the six registration columns filtered by
`_fetch_registrations` as an ASCII-case-insensitive substring. -/
def ciRegistrationMatch (query : String) (r : Registration) : Bool :=
  [r.email, r.first_name, r.last_name, r.affiliation, r.project, r.status].any
    (fun c => ciContains c query)

/-- The query matches one of the six booking columns filtered by
`_fetch_bookings` as an ASCII-case-insensitive substring. -/
def ciBookingMatch (query : String) (b : Booking) : Bool :=
  [b.email, b.first_name, b.last_name, b.project, b.timeslot_raw, b.status].any
    (fun c => ciContains c query)

/-- The query matches one of the three research-activity columns filtered by
`_fetch_activity_research` as an ASCII-case-insensitive substring. -/
def ciResearchMatch (query : String) (a : ResearchActivity) : Bool :=
  [a.email, a.project, a.presence].any (fun c => ciContains c query)

/-- The query matches one of the four service-activity columns filtered by
`_fetch_activity_service` as an ASCII-case-insensitive substring. -/
def ciServiceMatch (query : String) (a : ServiceActivity) : Bool :=
  [a.name, a.company, a.service, a.presence].any (fun c => ciContains c query)

/-- The query contains no `LIKE` metacharacter. -/
def noWildcard (q : String) : Bool :=
  q.toList.all (fun c => !(c = '%') && !(c = '_'))

/-! ## Bridge lemmas: `LIKE %query%` is ASCII-case-insensitive substring
matching for wildcard-free queries -/

theorem likeM_percent_iff (p s : List Char) :
    likeM ('%' :: p) s = true ↔ ∃ k, likeM p (s.drop k) = true := by
  rw [show likeM ('%' :: p) s =
      (List.range (s.length + 1)).any (fun k => likeM p (s.drop k)) by
    simp [likeM]]
  rw [List.any_eq_true]
  constructor
  · rintro ⟨k, _, hk⟩
    exact ⟨k, hk⟩
  · rintro ⟨k, hk⟩
    by_cases h : k ≤ s.length
    · exact ⟨k, List.mem_range.mpr (Nat.lt_succ_of_le h), hk⟩
    · refine ⟨s.length, List.mem_range.mpr (Nat.lt_succ_self _), ?_⟩
      rw [List.drop_length]
      rwa [List.drop_eq_nil_of_le (Nat.le_of_not_le h)] at hk

theorem likeM_percent_nil (s : List Char) : likeM ['%'] s = true := by
  refine (likeM_percent_iff [] s).mpr ⟨s.length, ?_⟩
  rw [List.drop_length]
  rfl

theorem likeM_append_percent (q : List Char)
    (hq : ∀ c ∈ q, ¬(c = '%') ∧ ¬(c = '_')) (s : List Char) :
    likeM (q ++ ['%']) s = true ↔ ciStarts q s = true := by
  induction q generalizing s with
  | nil => simpa [ciStarts] using likeM_percent_nil s
  | cons a q ih =>
      obtain ⟨ha₁, ha₂⟩ := hq a (List.mem_cons_self a q)
      have hq' : ∀ c ∈ q, ¬(c = '%') ∧ ¬(c = '_') :=
        fun c hc => hq c (List.mem_cons_of_mem a hc)
      cases s with
      | nil => simp [likeM, ciStarts, ha₁]
      | cons c cs =>
          rw [List.cons_append,
            show likeM (a :: (q ++ ['%'])) (c :: cs) =
              ((decide (a = '_') || eqCI a c) && likeM (q ++ ['%']) cs) by
            simp [likeM, ha₁]]
          simp only [ciStarts, Bool.and_eq_true, Bool.or_eq_true,
            decide_eq_true_eq]
          rw [ih hq' cs]
          constructor
          · rintro ⟨h | h, hrest⟩
            · exact absurd h ha₂
            · exact ⟨h, hrest⟩
          · rintro ⟨h, hrest⟩
            exact ⟨Or.inr h, hrest⟩

theorem ciStarts_drop_exists (q s : List Char) :
    (∃ k, ciStarts q (s.drop k) = true) ↔
      ((List.range (s.length + 1)).any (fun k => ciStarts q (s.drop k)) = true) := by
  rw [List.any_eq_true]
  constructor
  · rintro ⟨k, hk⟩
    by_cases h : k ≤ s.length
    · exact ⟨k, List.mem_range.mpr (Nat.lt_succ_of_le h), hk⟩
    · refine ⟨s.length, List.mem_range.mpr (Nat.lt_succ_self _), ?_⟩
      rw [List.drop_length]
      rwa [List.drop_eq_nil_of_le (Nat.le_of_not_le h)] at hk
  · rintro ⟨k, _, hk⟩
    exact ⟨k, hk⟩

theorem sqliteLike_eq_ciContains (q col : String) (hw : noWildcard q = true) :
    sqliteLike ("%" ++ q ++ "%") col = ciContains col q := by
  have hdata : ("%" ++ q ++ "%").toList = '%' :: (q.toList ++ ['%']) := by
    simp [String.toList]
  have hq : ∀ c ∈ q.toList, ¬(c = '%') ∧ ¬(c = '_') := by
    intro c hc
    have := (List.all_eq_true.mp hw) c hc
    simp only [Bool.and_eq_true, Bool.not_eq_true', decide_eq_false_iff_not] at this
    exact this
  have hlen : col.length = col.toList.length := rfl
  rw [Bool.eq_iff_iff]
  unfold sqliteLike ciContains
  rw [hdata, likeM_percent_iff, hlen, ← ciStarts_drop_exists]
  constructor
  · rintro ⟨k, hk⟩
    exact ⟨k, (likeM_append_percent q.toList hq _).mp hk⟩
  · rintro ⟨k, hk⟩
    exact ⟨k, (likeM_append_percent q.toList hq _).mpr hk⟩

theorem anyColumnLike_eq_ci (q : String) (cols : List String)
    (hw : noWildcard q = true) :
    anyColumnLike q cols = cols.any (fun c => ciContains c q) := by
  unfold anyColumnLike
  induction cols with
  | nil => rfl
  | cons c cs ih => simp only [List.any_cons, ih, sqliteLike_eq_ciContains q c hw]

/-! ## Sorting lemmas for `ORDER BY created_at DESC` -/

theorem insertDesc_perm (key : α → Nat) (x : α) (l : List α) :
    (insertDesc key x l).Perm (x :: l) := by
  induction l with
  | nil => exact List.Perm.refl _
  | cons y ys ih =>
      by_cases h : key y ≤ key x
      · simp [insertDesc, h]
      · simp only [insertDesc, if_neg h]
        exact (ih.cons y).trans (List.Perm.swap x y ys)

theorem sortDesc_perm (key : α → Nat) (l : List α) :
    (sortDesc key l).Perm l := by
  induction l with
  | nil => exact List.Perm.refl _
  | cons x xs ih =>
      exact (insertDesc_perm key x (sortDesc key xs)).trans (ih.cons x)

theorem insertDesc_pairwise (key : α → Nat) (x : α) (l : List α)
    (h : List.Pairwise (fun a b => key b ≤ key a) l) :
    List.Pairwise (fun a b => key b ≤ key a) (insertDesc key x l) := by
  induction l with
  | nil => simp [insertDesc]
  | cons y ys ih =>
      obtain ⟨hy, ht⟩ := List.pairwise_cons.mp h
      by_cases hle : key y ≤ key x
      · simp only [insertDesc, if_pos hle]
        refine List.pairwise_cons.mpr ⟨?_, h⟩
        intro z hz
        rcases List.mem_cons.mp hz with rfl | hz
        · exact hle
        · exact Nat.le_trans (hy z hz) hle
      · simp only [insertDesc, if_neg hle]
        refine List.pairwise_cons.mpr ⟨?_, ih ht⟩
        intro z hz
        have hz' := (insertDesc_perm key x ys).mem_iff.mp hz
        rcases List.mem_cons.mp hz' with rfl | hz'
        · exact Nat.le_of_lt (Nat.lt_of_not_le hle)
        · exact hy z hz'

theorem sortDesc_pairwise (key : α → Nat) (l : List α) :
    List.Pairwise (fun a b => key b ≤ key a) (sortDesc key l) := by
  induction l with
  | nil => simp [sortDesc]
  | cons x xs ih => exact insertDesc_pairwise key x (sortDesc key xs) ih

/-- Map leaves a list unchanged when the function fixes every element. -/
theorem map_id_of_fix (f : α → α) (l : List α) (h : ∀ a ∈ l, f a = a) :
    l.map f = l := by
  induction l with
  | nil => rfl
  | cons a t ih =>
      simp only [List.map_cons, h a (List.mem_cons_self a t)]
      rw [ih (fun b hb => h b (List.mem_cons_of_mem a hb))]

/-! ## Concrete rows and stores for witnesses and counterexamples -/

def emptyDb : Db := ⟨[], [], [], [], []⟩

def regAda : Registration :=
  { email := "ada@site.de", first_name := "Ada", last_name := "Lovelace",
    affiliation := "RWTH", project := "CARE", phone := "0241",
    status := "pending", created_at := 1 }

def userAda : User :=
  { email := "ada@site.de", password := "pw-old", first_name := "Ada",
    last_name := "Lovelace", affiliation := "RWTH", project := "CARE",
    phone := "0241", credentials_sent := 0, created_at := 1 }

def regDenied : Registration := { regAda with status := "denied" }

def bookingOne : Booking :=
  { id := 7, email := "ada@site.de", first_name := "Ada",
    last_name := "Lovelace", project := "CARE",
    timeslot_raw := "2025-W10; Mon-Fri", duration_weeks := "2",
    status := "pending", created_at := 3 }

def cfgWithHost : SmtpConfig :=
  { host := "smtp.example.com", user := "", password := "" }

def cfgNoHost : SmtpConfig := { host := "", user := "", password := "" }

/-! ## Claim C1 -/

/-- Claim C1, as stated, is false on the code: with a pending registration
and an existing user of the same email, `_approve_registration` does not
reject the operation — the registration's status becomes "registriert" (not
"pending") and a second user row is created. -/
theorem C1_counterexample :
    regAda.status = "pending" ∧ userAda.email = regAda.email ∧
    (approve_registration
        { emptyDb with registrations := [regAda], users := [userAda] }
        "ada@site.de" "pw-new" 2).1.registrations.map Registration.status =
      ["registriert"] ∧
    (approve_registration
        { emptyDb with registrations := [regAda], users := [userAda] }
        "ada@site.de" "pw-new" 2).1.users.length = 2 := by
  decide

/-- Claim C1 (amended): `_approve_registration` performs no user-existence
check.  For every registration found by email — in particular when a user
with that email already exists — approve appends one more user row and sets
the registration's status to "registriert"; the duplicate-email guard exists
only in the manual registration-storage path. -/
theorem C1_approve_ignores_existing_user (db : Db) (email password : String)
    (now : Nat) (r : Registration)
    (hfind : findRegistration db email = some r)
    (hexists : ∃ u ∈ db.users, u.email = email) :
    (approve_registration db email password now).1.users.length =
      db.users.length + 1 ∧
    ∀ r' ∈ (approve_registration db email password now).1.registrations,
      r'.email = email → r'.status = "registriert" := by
  unfold approve_registration
  rw [hfind]
  refine ⟨?_, ?_⟩
  · simp [insert_user, update_registration_status]
  · intro r' hr' he
    simp only [update_registration_status, insert_user, List.mem_map] at hr'
    obtain ⟨r₀, hr₀, heq⟩ := hr'
    by_cases h : r₀.email = email
    · rw [← heq]
      simp [h]
    · rw [← heq] at he
      simp only [if_neg h] at he
      exact absurd he h

/-- Witness for C1's amended theorem at a concrete store. -/
theorem C1_witness :
    (approve_registration
        { emptyDb with registrations := [regAda], users := [userAda] }
        "ada@site.de" "pw-new" 2).1.users.length =
      ({ emptyDb with registrations := [regAda], users := [userAda] } : Db).users.length + 1 :=
  (C1_approve_ignores_existing_user
    { emptyDb with registrations := [regAda], users := [userAda] }
    "ada@site.de" "pw-new" 2 regAda (by decide)
    ⟨userAda, by decide, by decide⟩).1

/-! ## Claim C2 -/

/-- Claim C2: for a registration found by email with status "pending" and no
existing user of that email, approve sets the registration's status to
"registriert" (leaving other registrations as they were) and the users table
then holds exactly one row for that email, carrying the freshly generated
password (`generate_password()` is embedded as the `password` argument). -/
theorem C2_approve_creates_user (db : Db) (email password : String) (now : Nat)
    (r : Registration)
    (hfind : findRegistration db email = some r)
    (hstatus : r.status = "pending")
    (hnouser : ∀ u ∈ db.users, u.email ≠ email) :
    (∀ r' ∈ (approve_registration db email password now).1.registrations,
        (r'.email = email → r'.status = "registriert") ∧
        (r'.email ≠ email → r' ∈ db.registrations)) ∧
    (approve_registration db email password now).1.users.filter
        (fun u => u.email = email) =
      [{ email := r.email, password := password, first_name := r.first_name,
         last_name := r.last_name, affiliation := r.affiliation,
         project := r.project, phone := r.phone, credentials_sent := 0,
         created_at := now }] := by
  have hre : r.email = email := by
    have h := List.find?_some (by simpa [findRegistration] using hfind)
    simpa using h
  unfold approve_registration
  rw [hfind]
  constructor
  · intro r' hr'
    simp only [update_registration_status, insert_user, List.mem_map] at hr'
    obtain ⟨r₀, hr₀, heq⟩ := hr'
    by_cases h : r₀.email = email
    · constructor
      · intro _
        rw [← heq]
        simp [h]
      · intro hne
        rw [← heq] at hne
        simp [h] at hne
    · constructor
      · intro he
        rw [← heq] at he
        simp only [if_neg h] at he
        exact absurd he h
      · intro _
        rw [← heq]
        simp only [if_neg h]
        exact hr₀
  · simp only [update_registration_status, insert_user]
    rw [List.filter_append]
    have h1 : db.users.filter (fun u => decide (u.email = email)) = [] := by
      rw [List.filter_eq_nil_iff]
      intro u hu
      simp [hnouser u hu]
    rw [h1]
    simp [hre]

/-- Witness for C2 at a concrete store with one pending registration and no
users. -/
theorem C2_witness :
    (approve_registration { emptyDb with registrations := [regAda] }
        "ada@site.de" "pw-new" 2).1.users.filter
        (fun u => u.email = "ada@site.de") =
      [{ email := "ada@site.de", password := "pw-new", first_name := "Ada",
         last_name := "Lovelace", affiliation := "RWTH", project := "CARE",
         phone := "0241", credentials_sent := 0, created_at := 2 }] :=
  (C2_approve_creates_user { emptyDb with registrations := [regAda] }
    "ada@site.de" "pw-new" 2 regAda (by decide) (by decide) (by decide)).2

/-! ## Claim C6 -/

/-- Claim C6, as stated, is false on the code: denying a registration whose
email is absent from the store does not report "not found" — the handler
flashes a success message and changes no row. -/
theorem C6_counterexample :
    deny_registration { emptyDb with registrations := [regAda] } "ghost@site.de" =
      ({ emptyDb with registrations := [regAda] },
        [Event.flash "Registration denied for ghost@site.de." "success"]) ∧
    Event.flash "Registration not found." "error" ∉
      (deny_registration { emptyDb with registrations := [regAda] }
        "ghost@site.de").2 := by
  decide

/-- Claim C6 (amended): the approve operations and the credential send report
"not found" for an absent key and abort without side effects; the deny
operations also change no row for an absent key, but flash their success
message instead of reporting "not found". -/
theorem C6_not_found_behaviour (db : Db) (email : String) (id : Nat)
    (password : String) (now : Nat) (cfg : SmtpConfig) (tOk : Bool) :
    ((∀ r ∈ db.registrations, r.email ≠ email) →
      approve_registration db email password now =
        (db, [.flash "Registration not found." "error"]) ∧
      deny_registration db email =
        (db, [.flash ("Registration denied for " ++ email ++ ".") "success"])) ∧
    ((∀ b ∈ db.bookings, b.id ≠ id) →
      approve_booking db id cfg tOk =
        (db, [.flash "Booking not found." "error"]) ∧
      deny_booking db id =
        (db, [.sqlCommit "bookings", .flash "Booking denied." "success"])) ∧
    ((∀ u ∈ db.users, u.email ≠ email) →
      send_user_credentials db email cfg tOk =
        { db := db, events := [.flash "User not found." "error"],
          error := none }) := by
  refine ⟨fun h1 => ⟨?_, ?_⟩, fun h2 => ⟨?_, ?_⟩, fun h3 => ?_⟩
  · have hfind : findRegistration db email = none := by
      unfold findRegistration
      rw [List.find?_eq_none]
      intro r hr
      simp [h1 r hr]
    unfold approve_registration
    rw [hfind]
  · have hmap : db.registrations.map
        (fun r => if r.email = email then { r with status := "denied" } else r) =
        db.registrations :=
      map_id_of_fix _ _ (fun r hr => by simp [h1 r hr])
    unfold deny_registration update_registration_status
    rw [hmap]
  · have hfind : findBooking db id = none := by
      unfold findBooking
      rw [List.find?_eq_none]
      intro b hb
      simp [h2 b hb]
    unfold approve_booking
    rw [hfind]
  · have hmap : db.bookings.map
        (fun b => if b.id = id then { b with status := "denied" } else b) =
        db.bookings :=
      map_id_of_fix _ _ (fun b hb => by simp [h2 b hb])
    unfold deny_booking updateBookingStatus
    rw [hmap]
  · have hfind : findUser db email = none := by
      unfold findUser
      rw [List.find?_eq_none]
      intro u hu
      simp [h3 u hu]
    unfold send_user_credentials
    rw [hfind]

/-- Witness for C6's amended theorem at a concrete store whose only rows do
not carry the requested keys. -/
theorem C6_witness :
    approve_registration { emptyDb with registrations := [regAda] }
        "ghost@site.de" "pw" 2 =
      ({ emptyDb with registrations := [regAda] },
        [.flash "Registration not found." "error"]) ∧
    deny_registration { emptyDb with registrations := [regAda] } "ghost@site.de" =
      ({ emptyDb with registrations := [regAda] },
        [.flash "Registration denied for ghost@site.de." "success"]) :=
  (C6_not_found_behaviour { emptyDb with registrations := [regAda] }
    "ghost@site.de" 9 "pw" 2 cfgNoHost true).1 (by decide)

/-! ## Claim C7 -/

/-- Claim C7, as stated, is false on the code: `_approve_registration` checks
no status, so a registration already in the terminal state "denied" is moved
to "registriert" by an approve. -/
theorem C7_counterexample :
    regDenied.status = "denied" ∧
    (approve_registration { emptyDb with registrations := [regDenied] }
        "ada@site.de" "pw-new" 2).1.registrations.map Registration.status =
      ["registriert"] := by
  decide

theorem status_map_keeps_pending_reg (l : List Registration) (email st : String)
    (hst : st ≠ "pending") (r' : Registration)
    (h : r' ∈ l.map (fun r => if r.email = email then { r with status := st } else r))
    (hp : r'.status = "pending") : r' ∈ l := by
  obtain ⟨r₀, hr₀, heq⟩ := List.mem_map.mp h
  by_cases hc : r₀.email = email
  · rw [← heq] at hp
    simp [hc] at hp
    exact absurd hp hst
  · rw [← heq]
    simp only [if_neg hc]
    exact hr₀

theorem status_map_keeps_pending_booking (l : List Booking) (id : Nat)
    (st : String) (hst : st ≠ "pending") (b' : Booking)
    (h : b' ∈ l.map (fun b => if b.id = id then { b with status := st } else b))
    (hp : b'.status = "pending") : b' ∈ l := by
  obtain ⟨b₀, hb₀, heq⟩ := List.mem_map.mp h
  by_cases hc : b₀.id = id
  · rw [← heq] at hp
    simp [hc] at hp
    exact absurd hp hst
  · rw [← heq]
    simp only [if_neg hc]
    exact hb₀

/-- Claim C7 (amended): the handlers never write the status "pending", so a
record that has left "pending" never returns to it — any row that reads
"pending" after an approve or deny was already present unchanged.  The
handlers do, however, perform no status check, so terminal states are not
protected (see the counterexample). -/
theorem C7_no_return_to_pending (db : Db) (email password : String) (now : Nat)
    (id : Nat) (cfg : SmtpConfig) (tOk : Bool) :
    (∀ r' ∈ (approve_registration db email password now).1.registrations,
        r'.status = "pending" → r' ∈ db.registrations) ∧
    (∀ r' ∈ (deny_registration db email).1.registrations,
        r'.status = "pending" → r' ∈ db.registrations) ∧
    (∀ b' ∈ (approve_booking db id cfg tOk).1.bookings,
        b'.status = "pending" → b' ∈ db.bookings) ∧
    (∀ b' ∈ (deny_booking db id).1.bookings,
        b'.status = "pending" → b' ∈ db.bookings) := by
  refine ⟨?_, ?_, ?_, ?_⟩
  · intro r' hr' hp
    unfold approve_registration at hr'
    cases hfind : findRegistration db email with
    | none =>
        rw [hfind] at hr'
        exact hr'
    | some r =>
        rw [hfind] at hr'
        simp only [update_registration_status, insert_user] at hr'
        exact status_map_keeps_pending_reg _ email "registriert" (by decide) r' hr' hp
  · intro r' hr' hp
    simp only [deny_registration, update_registration_status] at hr'
    exact status_map_keeps_pending_reg _ email "denied" (by decide) r' hr' hp
  · intro b' hb' hp
    unfold approve_booking at hb'
    cases hfind : findBooking db id with
    | none =>
        rw [hfind] at hb'
        exact hb'
    | some row =>
        rw [hfind] at hb'
        simp only [updateBookingStatus] at hb'
        exact status_map_keeps_pending_booking _ id "gebucht" (by decide) b' hb' hp
  · intro b' hb' hp
    simp only [deny_booking, updateBookingStatus] at hb'
    exact status_map_keeps_pending_booking _ id "denied" (by decide) b' hb' hp

/-- Witness for C7's amended theorem: the pending row surviving a deny of a
different key was already in the store. -/
theorem C7_witness : regAda ∈ [regAda] :=
  (C7_no_return_to_pending { emptyDb with registrations := [regAda] }
      "ghost@site.de" "pw" 2 9 cfgNoHost true).2.1 regAda (by decide) (by decide)

/-! ## Claim C10 -/

/-- Claim C10: any `table` selector other than the exact string "service"
(including an absent one) selects the research activity table and is reported
back as "research"; exactly "service" selects the service-provider table. -/
theorem C10_activities_table_selector (t : Option String) (q : String) (db : Db)
    (h : t ≠ some "service") :
    activities t q db = ("research", .research (fetch_activity_research q db)) ∧
    activities (some "service") q db =
      ("service", .service (fetch_activity_service q db)) := by
  constructor
  · unfold activities
    rcases t with _ | s
    · rfl
    · have hs : ¬(s = "service") := fun h' => h (by rw [h'])
      simp [Option.getD, hs]
  · rfl

/-- Witness for C10 at a concrete selector value different from "service". -/
theorem C10_witness :
    activities (some "bookings") "" emptyDb =
      ("research", .research (fetch_activity_research "" emptyDb)) :=
  (C10_activities_table_selector (some "bookings") "" emptyDb (by decide)).1

/-! ## Claim C3 -/

/-- Claim C3 exposes a code bug: with an SMTP host configured and an existing
user, `_send_user_credentials` raises `TypeError` — the call at
`coordination_app.py` line 350 passes two arguments to the four-parameter
`build_credentials_email` — before any transport attempt.  The counter is
left unchanged and no send, flash or commit happens; neither the successful
send (counter N+1) nor a reported transport failure described by the claim is
reachable. -/
theorem C3_credentials_send_raises_typeError :
    (send_user_credentials { emptyDb with users := [userAda] } "ada@site.de"
        cfgWithHost true).error = some .typeError ∧
    (send_user_credentials { emptyDb with users := [userAda] } "ada@site.de"
        cfgWithHost true).db = { emptyDb with users := [userAda] } ∧
    (send_user_credentials { emptyDb with users := [userAda] } "ada@site.de"
        cfgWithHost true).events = [] := by
  decide

/-! ## Claim C4 -/

/-- Claim C4: approving a pending booking by id sets its status to "gebucht"
and commits before the send attempt; with an SMTP host configured exactly one
confirmation-send attempt is made, addressed to the row's email with project,
timeslot and duration populated from the row, and a transport failure does
not change the resulting store. -/
theorem C4_approve_booking_commit_then_send (db : Db) (id : Nat)
    (cfg : SmtpConfig) (tOk : Bool) (row : Booking)
    (hfind : findBooking db id = some row)
    (hstatus : row.status = "pending")
    (hhost : cfg.host ≠ "") :
    (approve_booking db id cfg tOk).1 = updateBookingStatus db id "gebucht" ∧
    (approve_booking db id cfg false).1 = (approve_booking db id cfg true).1 ∧
    (approve_booking db id cfg tOk).2.countP Event.isSendAttempt = 1 ∧
    (approve_booking db id cfg tOk).2.take 2 =
      [.sqlCommit "bookings",
       .sendAttempt (build_booking_confirmation_email row.email row)] ∧
    (build_booking_confirmation_email row.email row).toAddr = row.email ∧
    ("Project: " ++ row.project) ∈
      (build_booking_confirmation_email row.email row).bodyLines ∧
    ("Timeslot: " ++ row.timeslot_raw) ∈
      (build_booking_confirmation_email row.email row).bodyLines ∧
    ("Duration (weeks): " ++ row.duration_weeks) ∈
      (build_booking_confirmation_email row.email row).bodyLines := by
  unfold approve_booking send_booking_email
  rw [hfind]
  simp only [if_neg hhost]
  cases tOk <;>
    simp [List.countP_cons, Event.isSendAttempt, build_booking_confirmation_email]

/-- Witness for C4 at a concrete pending booking and configured host. -/
theorem C4_witness :
    (approve_booking { emptyDb with bookings := [bookingOne] } 7 cfgWithHost
        true).2.take 2 =
      [.sqlCommit "bookings",
       .sendAttempt (build_booking_confirmation_email bookingOne.email bookingOne)] :=
  (C4_approve_booking_commit_then_send { emptyDb with bookings := [bookingOne] }
    7 cfgWithHost true bookingOne (by decide) (by decide) (by decide)).2.2.2.1

/-! ## Claim C5 -/

/-- Claim C5: every transport invocation in the coordinator happens only when
the configured SMTP host is non-empty; with the host absent the send is
skipped, a configuration-error message is flashed, and the booking status
update still completes. -/
theorem C5_send_only_with_host (db : Db) (id : Nat) (email : String)
    (cfg : SmtpConfig) (tOk : Bool) (row : Booking) (m : EmailMsg) :
    (Event.sendAttempt m ∈ (approve_booking db id cfg tOk).2 → cfg.host ≠ "") ∧
    (Event.sendAttempt m ∈ (send_user_credentials db email cfg tOk).events →
      cfg.host ≠ "") ∧
    (cfg.host = "" → findBooking db id = some row →
      (approve_booking db id cfg tOk).1 = updateBookingStatus db id "gebucht" ∧
      Event.flash "SMTP host not configured; booking email not sent." "error" ∈
        (approve_booking db id cfg tOk).2) := by
  refine ⟨?_, ?_, ?_⟩
  · intro hm heq
    unfold approve_booking at hm
    cases hfind : findBooking db id with
    | none =>
        rw [hfind] at hm
        simp at hm
    | some r =>
        rw [hfind] at hm
        simp [send_booking_email, heq] at hm
  · intro hm heq
    unfold send_user_credentials at hm
    cases hfind : findUser db email with
    | none =>
        rw [hfind] at hm
        simp at hm
    | some u =>
        rw [hfind] at hm
        simp [send_credentials_email, heq] at hm
  · intro heq hfind
    unfold approve_booking
    rw [hfind]
    simp [send_booking_email, heq]

/-- Witness for C5 with the host absent: the status update still happens and
the configuration error is flashed. -/
theorem C5_witness :
    (approve_booking { emptyDb with bookings := [bookingOne] } 7 cfgNoHost
        true).1 =
      updateBookingStatus { emptyDb with bookings := [bookingOne] } 7 "gebucht" ∧
    Event.flash "SMTP host not configured; booking email not sent." "error" ∈
      (approve_booking { emptyDb with bookings := [bookingOne] } 7 cfgNoHost
        true).2 :=
  (C5_send_only_with_host { emptyDb with bookings := [bookingOne] } 7
    "ada@site.de" cfgNoHost true bookingOne
    { subject := "s", toAddr := "t", bodyLines := [] }).2.2 rfl (by decide)

/-! ## Claim C8 -/

def userSmith : User :=
  { email := "s@x.de", password := "pw", first_name := "Agent",
    last_name := "Smith", affiliation := "RWTH", project := "CARE",
    phone := "0241", credentials_sent := 0, created_at := 1 }

/-- Claim C8, as stated, is false on the code: SQLite's default `LIKE` is
ASCII-case-insensitive, so the query "smith" returns the user whose last name
is "Smith" although "smith" is a case-sensitive substring of none of the six
filtered columns. -/
theorem C8_counterexample :
    fetch_users "smith" { emptyDb with users := [userSmith] } = [userSmith] ∧
    specCaseSensitiveUserMatch "smith" userSmith = false := by
  decide

/-- Shared shape of the five list views: `sortDesc` applied to the optionally
`LIKE`-filtered rows.  For a wildcard-free query the filter is equivalent to
ASCII-case-insensitive substring matching over the view's column set; the
result is always a permutation sorted by the key descending. -/
theorem sortDesc_filter_spec {α : Type} (key : α → Nat) (cols : α → List String)
    (q : String) (rows : List α) (hw : noWildcard q = true) :
    (q = "" →
      (sortDesc key (if q = "" then rows
        else rows.filter (fun r => anyColumnLike q (cols r)))).Perm rows) ∧
    (q ≠ "" → ∀ r, r ∈ sortDesc key (if q = "" then rows
        else rows.filter (fun r => anyColumnLike q (cols r))) ↔
      r ∈ rows ∧ (cols r).any (fun c => ciContains c q) = true) ∧
    List.Pairwise (fun a b => key b ≤ key a)
      (sortDesc key (if q = "" then rows
        else rows.filter (fun r => anyColumnLike q (cols r)))) := by
  refine ⟨?_, ?_, ?_⟩
  · intro hq
    rw [if_pos hq]
    exact sortDesc_perm _ _
  · intro hq r
    rw [if_neg hq, (sortDesc_perm _ _).mem_iff, List.mem_filter]
    have hcols : anyColumnLike q (cols r) =
        (cols r).any (fun c => ciContains c q) :=
      anyColumnLike_eq_ci _ _ hw
    rw [hcols]
  · exact sortDesc_pairwise _ _

/-- Claim C8 (amended): for a non-empty wildcard-free query each list view
(registrations, users, bookings, research activities, service activities)
returns exactly the rows where the query is an ASCII-case-insensitive
substring of one of the table's fixed column set; for an empty query all rows
of the table are returned; the result is always ordered by creation time
descending. -/
theorem C8_fetch_list_views_filter (q : String) (db : Db)
    (hw : noWildcard q = true) :
    ((q = "" → (fetch_registrations q db).Perm db.registrations) ∧
     (q ≠ "" → ∀ r, r ∈ fetch_registrations q db ↔
       r ∈ db.registrations ∧ ciRegistrationMatch q r = true) ∧
     List.Pairwise (fun a b => b.created_at ≤ a.created_at)
       (fetch_registrations q db)) ∧
    ((q = "" → (fetch_users q db).Perm db.users) ∧
     (q ≠ "" → ∀ u, u ∈ fetch_users q db ↔
       u ∈ db.users ∧ ciUserMatch q u = true) ∧
     List.Pairwise (fun a b => b.created_at ≤ a.created_at)
       (fetch_users q db)) ∧
    ((q = "" → (fetch_bookings q db).Perm db.bookings) ∧
     (q ≠ "" → ∀ b, b ∈ fetch_bookings q db ↔
       b ∈ db.bookings ∧ ciBookingMatch q b = true) ∧
     List.Pairwise (fun a b => b.created_at ≤ a.created_at)
       (fetch_bookings q db)) ∧
    ((q = "" → (fetch_activity_research q db).Perm db.activity_research) ∧
     (q ≠ "" → ∀ a, a ∈ fetch_activity_research q db ↔
       a ∈ db.activity_research ∧ ciResearchMatch q a = true) ∧
     List.Pairwise (fun a b => b.created_at ≤ a.created_at)
       (fetch_activity_research q db)) ∧
    ((q = "" →
       (fetch_activity_service q db).Perm db.activity_service_provider) ∧
     (q ≠ "" → ∀ a, a ∈ fetch_activity_service q db ↔
       a ∈ db.activity_service_provider ∧ ciServiceMatch q a = true) ∧
     List.Pairwise (fun a b => b.created_at ≤ a.created_at)
       (fetch_activity_service q db)) := by
  refine ⟨?_, ?_, ?_, ?_, ?_⟩
  · exact sortDesc_filter_spec (fun r => r.created_at)
      (fun r => [r.email, r.first_name, r.last_name, r.affiliation,
        r.project, r.status]) q db.registrations hw
  · exact sortDesc_filter_spec (fun u => u.created_at)
      (fun u => [u.email, u.first_name, u.last_name, u.affiliation,
        u.project, u.phone]) q db.users hw
  · exact sortDesc_filter_spec (fun b => b.created_at)
      (fun b => [b.email, b.first_name, b.last_name, b.project,
        b.timeslot_raw, b.status]) q db.bookings hw
  · exact sortDesc_filter_spec (fun a => a.created_at)
      (fun a => [a.email, a.project, a.presence]) q db.activity_research hw
  · exact sortDesc_filter_spec (fun a => a.created_at)
      (fun a => [a.name, a.company, a.service, a.presence]) q
      db.activity_service_provider hw

/-- Witness for C8's amended theorem: the case-insensitively matching user
row is returned for the query "smith", and the registrations view of the
same store returns all rows for the empty query. -/
theorem C8_witness :
    userSmith ∈ fetch_users "smith"
      { emptyDb with users := [userSmith], registrations := [regAda] } ∧
    (fetch_registrations ""
      { emptyDb with users := [userSmith], registrations := [regAda] }).Perm
      [regAda] :=
  ⟨((C8_fetch_list_views_filter "smith"
      { emptyDb with users := [userSmith], registrations := [regAda] }
      (by decide)).2.1.2.1 (by decide) userSmith).mpr ⟨by decide, by decide⟩,
   (C8_fetch_list_views_filter ""
      { emptyDb with users := [userSmith], registrations := [regAda] }
      (by decide)).1.1 rfl⟩

/-! ## Claim C9 -/

theorem bookingSummaryStatement_text (e : String) (s t : Option String) :
    (bookingSummaryStatement e s t).1 =
      "SELECT * FROM bookings WHERE 1=1" ++
      (if e ≠ "" then " AND email = ?" else "") ++
      (if optTruthy s then " AND date(created_at) >= date(?)" else "") ++
      (if optTruthy t then " AND date(created_at) <= date(?)" else "") := by
  rcases s with _ | sv <;> rcases t with _ | tv <;>
    by_cases he : e = "" <;>
    (try by_cases hs : sv = "") <;>
    (try by_cases ht : tv = "") <;>
    simp_all [bookingSummaryStatement, optTruthy]

theorem bookingSummaryStatement_params (e : String) (s t : Option String) :
    (bookingSummaryStatement e s t).2 =
      (if e ≠ "" then [e] else []) ++
      (if optTruthy s then [s.getD ""] else []) ++
      (if optTruthy t then [t.getD ""] else []) := by
  rcases s with _ | sv <;> rcases t with _ | tv <;>
    by_cases he : e = "" <;>
    (try by_cases hs : sv = "") <;>
    (try by_cases ht : tv = "") <;>
    simp_all [bookingSummaryStatement, optTruthy]

/-- Claim C9, as stated, is false on the code: the executed SQL text is not
identical for every pair of request-origin values — presence of a free-text
query switches in the fixed `WHERE` clause. -/
theorem C9_counterexample :
    (fetchUsersStatement "").1 ≠ (fetchUsersStatement "smith").1 := by
  decide

/-- Claim C9 (amended): the SQL text depends only on which filters are
present, never on their contents — two value assignments with the same
presence pattern produce identical statement text — and the user-supplied
values flow only into the parameter lists. -/
theorem C9_sql_text_value_independent (q q' e e' : String)
    (s s' t t' : Option String) :
    ((q = "" ↔ q' = "") →
      (fetchUsersStatement q).1 = (fetchUsersStatement q').1) ∧
    ((fetchUsersStatement q).2 =
      if q = "" then [] else List.replicate 6 ("%" ++ q ++ "%")) ∧
    ((e = "" ↔ e' = "") → optTruthy s = optTruthy s' →
      optTruthy t = optTruthy t' →
      (bookingSummaryStatement e s t).1 = (bookingSummaryStatement e' s' t').1) ∧
    ((bookingSummaryStatement e s t).2 =
      (if e ≠ "" then [e] else []) ++
      (if optTruthy s then [s.getD ""] else []) ++
      (if optTruthy t then [t.getD ""] else [])) := by
  refine ⟨?_, ?_, ?_, bookingSummaryStatement_params e s t⟩
  · intro h
    by_cases hq : q = ""
    · simp [fetchUsersStatement, hq, h.mp hq]
    · have hq' : ¬(q' = "") := fun hc => hq (h.mpr hc)
      simp [fetchUsersStatement, hq, hq']
  · by_cases hq : q = "" <;> simp [fetchUsersStatement, hq]
  · intro h1 h2 h3
    rw [bookingSummaryStatement_text, bookingSummaryStatement_text, h2, h3]
    by_cases he : e = ""
    · have he' : e' = "" := h1.mp he
      simp [he, he']
    · have he' : ¬(e' = "") := fun hc => he (h1.mpr hc)
      simp [he, he']

/-- Witness for C9's amended theorem: two different query values and two
different filter-value assignments with the same presence pattern yield the
same statement text. -/
theorem C9_witness :
    (fetchUsersStatement "alice").1 = (fetchUsersStatement "bob").1 ∧
    (bookingSummaryStatement "a@b.de" (some "2025-01-01") none).1 =
      (bookingSummaryStatement "c@d.de" (some "2025-02-02") none).1 :=
  ⟨(C9_sql_text_value_independent "alice" "bob" "" "" none none none none).1
      (by decide),
   (C9_sql_text_value_independent "x" "y" "a@b.de" "c@d.de"
      (some "2025-01-01") (some "2025-02-02") none none).2.2.1
      (by decide) (by decide) rfl⟩

end SiteCoordination
